import Mathlib

/-!
Shallow embedding of `pyglet/scene2d/map.py`: rectangular and hexagonal
tile maps with neighbor navigation.

Conventions of the embedding:
* Python integers are `Int`; Python 2's `/` on ints is floor division,
  embedded as `Int.fdiv`; `%` is embedded as `Int.emod` (Lean's `%` on
  `Int`), which agrees with Python's `%` for a positive modulus.
* A cell of the `meta` / `images` arrays may be Python `None`, so a cell
  is `Option α`; a whole layer may be absent (`None`), so a layer is
  `Option (List (List (Option α)))`, addressed column-major `[x][y]`.
* Fallible Python code (constructors that `raise`) returns `Except PyErr`.
* `Map.get` / `HexMap.get` catch `IndexError` and return `None`; they are
  total functions into `Option` (they never raise for a tile position).
* `int(th / math.sqrt(3))` is embedded with the real square root:
  `⌊th / √3⌋ = ⌊√(⌊th² / 3⌋)⌋`, computed as `Nat.sqrt (th.toNat ^ 2 / 3)`.
-/

namespace Pyglet

/-- The Python exceptions that the embedded code can raise. -/
inductive PyErr where
  | valueError
  | indexError
  | typeError
  | notImplemented
  | zeroDivisionError
  deriving DecidableEq, Repr

/-- One layer (`meta` or `images`): a column-major array of optional cell
values, or absent altogether. -/
abbrev Layer (γ : Type) := Option (List (List (Option γ)))

/-- Column lengths of a layer; all the constructor needs of `meta or images`
(which mixes the two layers' element types) is this shape. -/
def shape (l : Layer γ) : Option (List Nat) :=
  l.map (fun arr => arr.map List.length)

/-- Python truthiness of a layer's shape: `None` and `[]` are falsy. -/
def truthyShape : Option (List Nat) → Bool
  | none => false
  | some l => !l.isEmpty

/-- Python `a or b` on the two layers' shapes: `a` if truthy, else `b`. -/
def pyOrShape (a b : Option (List Nat)) : Option (List Nat) :=
  if truthyShape a then a else b

/-- Python `arr[x][y]` on a column-major layer array: out-of-range indices
raise `IndexError` (negative indices are ruled out by the callers' guards). -/
def pyIndex2 (arr : List (List (Option γ))) (x y : Nat) :
    Except PyErr (Option γ) :=
  match arr[x]? with
  | none => .error .indexError
  | some col =>
    match col[y]? with
    | none => .error .indexError
    | some v => .ok v

/-- `Map` (rectangular), fields as in `Map.__slots__`. -/
structure Map (α β : Type) where
  tw : Int
  th : Int
  x : Int
  y : Int
  z : Int
  meta : Layer α
  images : Layer β
  pxw : Int
  pxh : Int
  deriving Repr

/-- A rectangular `Tile` (fields as in `TileBase.__init__`; the back
reference to the owning map is passed explicitly to `get_neighbor`
instead of being stored, to keep the structure first-order). -/
structure Tile (α β : Type) where
  x : Int
  y : Int
  width : Int
  height : Int
  meta : Option α
  image : Option β
  deriving Repr

/-- `Map.__init__(tw, th, origin, meta, images)`.
`pxh` reads `len(l[1])` — the SECOND column — exactly as the source does;
`l = meta or images`, and `len(None)` is a `TypeError` when the chosen
value is Python `None`. -/
def mapInit (tw th : Int) (origin : Int × Int × Int)
    (meta : Layer α) (images : Layer β) : Except PyErr (Map α β) :=
  if meta.isNone && images.isNone then .error .valueError
  else
    match pyOrShape (shape meta) (shape images) with
    | none => .error .typeError
    | some cols =>
      match (cols[1]? : Option Nat) with
      | none => .error .indexError
      | some c1 =>
        .ok { tw := tw, th := th,
              x := origin.1, y := origin.2.1, z := origin.2.2,
              meta := meta, images := images,
              pxw := (cols.length : Int) * tw, pxh := (c1 : Int) * th }

/-- `self.meta and self.meta[x][y]` inside `Map.get`'s `try` block: a falsy
layer (absent or empty) short-circuits to an absent cell value; a truthy
layer is indexed and may raise `IndexError`. -/
def layerLookup (l : Layer γ) (x y : Nat) : Except PyErr (Option γ) :=
  match l with
  | none => .ok none
  | some arr => if arr.isEmpty then .ok none else pyIndex2 arr x y

/-- `Map.get(pos=(x,y))` (the tile-position branch): negative coordinates
return `None`; `IndexError` from either layer is caught and returns `None`;
otherwise a fresh `Tile(self, x, y, meta, image)` is built. -/
def Map.get (m : Map α β) (pos : Int × Int) : Option (Tile α β) :=
  if pos.1 < 0 || pos.2 < 0 then none
  else
    match layerLookup m.meta pos.1.toNat pos.2.toNat with
    | .error _ => none
    | .ok mv =>
      match layerLookup m.images pos.1.toNat pos.2.toNat with
      | .error _ => none
      | .ok iv => some ⟨pos.1, pos.2, m.tw, m.th, mv, iv⟩

/-- `Map.get(pos=..., px=...)` with both keyword arguments: the pixel branch
floor-divides by the tile size (`ZeroDivisionError` when a tile dimension is
zero); with neither argument a `ValueError` is raised. -/
def Map.getFull (m : Map α β) (pos px : Option (Int × Int)) :
    Except PyErr (Option (Tile α β)) :=
  match pos with
  | some p => .ok (m.get p)
  | none =>
    match px with
    | some p =>
      if m.tw = 0 || m.th = 0 then .error .zeroDivisionError
      else .ok (m.get (p.1.fdiv m.tw, p.2.fdiv m.th))
    | none => .error .valueError

/-- Rectangular tile geometry, straight from the `Tile` properties.
Python 2 `/` on ints is `Int.fdiv`. -/
def Tile.get_top (t : Tile α β) : Int := (t.y + 1) * t.height

def Tile.get_bottom (t : Tile α β) : Int := t.y * t.height

def Tile.get_center (t : Tile α β) : Int × Int :=
  (t.x * t.width + t.width.fdiv 2, t.y * t.height + t.height.fdiv 2)

def Tile.get_midtop (t : Tile α β) : Int × Int :=
  (t.x * t.width + t.width.fdiv 2, t.y * t.height)

def Tile.get_midbottom (t : Tile α β) : Int × Int :=
  (t.x * t.width + t.width.fdiv 2, (t.y + 1) * t.height)

def Tile.get_left (t : Tile α β) : Int := t.x * t.width

def Tile.get_right (t : Tile α β) : Int := (t.x + 1) * t.width

def Tile.get_topleft (t : Tile α β) : Int × Int :=
  (t.x * t.width, t.y * t.height)

def Tile.get_topright (t : Tile α β) : Int × Int :=
  ((t.x + 1) * t.width, t.y * t.height)

/-- NOTE: the source multiplies `self.x` by `self.height` (not `width`) in
the x coordinate; the embedding reproduces that. -/
def Tile.get_bottomleft (t : Tile α β) : Int × Int :=
  (t.x * t.height, (t.y + 1) * t.height)

def Tile.get_bottomright (t : Tile α β) : Int × Int :=
  ((t.x + 1) * t.width, (t.y + 1) * t.height)

def Tile.get_midleft (t : Tile α β) : Int × Int :=
  (t.x * t.width, t.y * t.height + t.height.fdiv 2)

def Tile.get_midright (t : Tile α β) : Int × Int :=
  ((t.x + 1) * t.width, t.y * t.height + t.height.fdiv 2)

/-- The four rectangular direction constants. -/
def Tile.UP : Int × Int := (0, 1)

def Tile.DOWN : Int × Int := (0, -1)

def Tile.LEFT : Int × Int := (-1, 0)

def Tile.RIGHT : Int × Int := (1, 0)

/-- `Tile.get_neighbor(direction)`: look the offset position up in the
owning map (passed explicitly here). -/
def Tile.get_neighbor (t : Tile α β) (m : Map α β) (d : Int × Int) :
    Option (Tile α β) :=
  m.get (t.x + d.1, t.y + d.2)

/-- Largest `k ≤ bound` with `k * k ≤ n` (structural recursion so the
kernel can evaluate it). -/
def isqrtAux (n : Nat) : Nat → Nat
  | 0 => 0
  | (k + 1) => if (k + 1) * (k + 1) ≤ n then k + 1 else isqrtAux n k

/-- Floor square root, `⌊√n⌋`. -/
def isqrt (n : Nat) : Nat := isqrtAux n n

/-- `HexMap`, fields as in `HexMap.__slots__` (`left` / `right` are the
convenience corner offsets computed in `__init__`). -/
structure HexMap (α β : Type) where
  tw : Int
  th : Int
  edge_length : Int
  left : Int × Int
  right : Int × Int
  pxw : Int
  pxh : Int
  x : Int
  y : Int
  z : Int
  meta : Layer α
  images : Layer β
  deriving Repr

/-- A `HexTile` (fields as in `TileBase.__init__`; the owning map is passed
explicitly to `get_neighbor`, as for `Tile`). -/
structure HexTile (α β : Type) where
  x : Int
  y : Int
  width : Int
  height : Int
  meta : Option α
  image : Option β
  deriving Repr

/-- `HexTile.get_origin`: pixel origin of the cell; odd columns are shifted
up by half a cell. -/
def HexTile.get_origin (t : HexTile α β) : Int × Int :=
  let x := t.x * (t.width.fdiv 2 + t.width.fdiv 4)
  let y := t.y * t.height
  if t.x % 2 ≠ 0 then (x, y + t.height.fdiv 2) else (x, y)

def HexTile.get_top (t : HexTile α β) : Int :=
  t.get_origin.2 + t.height

def HexTile.get_bottom (t : HexTile α β) : Int :=
  t.get_origin.2

def HexTile.get_center (t : HexTile α β) : Int × Int :=
  (t.get_origin.1 + t.width.fdiv 2, t.get_origin.2 + t.height.fdiv 2)

def HexTile.get_midtop (t : HexTile α β) : Int × Int :=
  (t.get_origin.1 + t.width.fdiv 2, t.get_origin.2 + t.height)

def HexTile.get_midbottom (t : HexTile α β) : Int × Int :=
  (t.get_origin.1 + t.width.fdiv 2, t.get_origin.2)

def HexTile.get_left (t : HexTile α β) : Int × Int :=
  (t.get_origin.1, t.get_origin.2 + t.height.fdiv 2)

def HexTile.get_right (t : HexTile α β) : Int × Int :=
  (t.get_origin.1 + t.width, t.get_origin.2 + t.height.fdiv 2)

def HexTile.get_topleft (t : HexTile α β) : Int × Int :=
  (t.get_origin.1 + t.width.fdiv 4, t.get_origin.2 + t.height)

def HexTile.get_topright (t : HexTile α β) : Int × Int :=
  (t.get_origin.1 + t.width.fdiv 2 + t.width.fdiv 4, t.get_origin.2 + t.height)

def HexTile.get_bottomleft (t : HexTile α β) : Int × Int :=
  (t.get_origin.1 + t.width.fdiv 4, t.get_origin.2)

def HexTile.get_bottomright (t : HexTile α β) : Int × Int :=
  (t.get_origin.1 + t.width.fdiv 2 + t.width.fdiv 4, t.get_origin.2)

def HexTile.get_midtopleft (t : HexTile α β) : Int × Int :=
  (t.get_origin.1 + t.width.fdiv 8,
   t.get_origin.2 + t.height.fdiv 2 + t.height.fdiv 4)

def HexTile.get_midtopright (t : HexTile α β) : Int × Int :=
  (t.get_origin.1 + t.width.fdiv 2 + t.width.fdiv 4 + t.width.fdiv 8,
   t.get_origin.2 + t.height.fdiv 2 + t.height.fdiv 4)

def HexTile.get_midbottomleft (t : HexTile α β) : Int × Int :=
  (t.get_origin.1 + t.width.fdiv 8, t.get_origin.2 + t.height.fdiv 4)

def HexTile.get_midbottomright (t : HexTile α β) : Int × Int :=
  (t.get_origin.1 + t.width.fdiv 2 + t.width.fdiv 4 + t.width.fdiv 8,
   t.get_origin.2 + t.height.fdiv 4)

/-- `HexMap.__init__(th, origin, meta, images)`. `edge_length` embeds
`int(th / math.sqrt(3))` via the real-root identity `⌊√⌊th²/3⌋⌋`; the map's
pixel size is read off corner tiles exactly as the source does, including
the `width == 1` special case for `pxh`. `len(l)` / `len(l[0])` on the
chosen backing value can raise (`TypeError` for `None`, `IndexError` for an
empty array). -/
def hexInit (th : Int) (origin : Int × Int × Int)
    (meta : Layer α) (images : Layer β) : Except PyErr (HexMap α β) :=
  if meta.isNone && images.isNone then .error .valueError
  else
    let edge_length : Int := (isqrt (th.toNat ^ 2 / 3) : Int)
    let tw := edge_length * 2
    match pyOrShape (shape meta) (shape images) with
    | none => .error .typeError
    | some cols =>
      match (cols[0]? : Option Nat) with
      | none => .error .indexError
      | some h0 =>
        let width := cols.length
        let pxw :=
          (⟨(width : Int) - 1, 0, tw, th, none, none⟩ :
            HexTile α β).get_right.1
        let pxh :=
          if width > 1 then
            (⟨1, (h0 : Int) - 1, tw, th, none, none⟩ : HexTile α β).get_top
          else
            (⟨0, (h0 : Int) - 1, tw, th, none, none⟩ : HexTile α β).get_top
        .ok { tw := tw, th := th, edge_length := edge_length,
              left := (tw.fdiv 2, th.fdiv 2),
              right := (edge_length * 2, th.fdiv 2),
              pxw := pxw, pxh := pxh,
              x := origin.1, y := origin.2.1, z := origin.2.2,
              meta := meta, images := images }

/-- One layer inside `HexMap.get`'s `try` block: result `none` means the
whole lookup returns `None` now (an `IndexError`, or an in-bounds cell
holding Python `None`); result `some v` means proceed with cell value `v`.
A falsy layer is skipped and contributes an absent value. -/
def hexLayerVal (l : Layer γ) (x y : Nat) : Option (Option γ) :=
  match l with
  | none => some none
  | some arr =>
    if arr.isEmpty then some none
    else
      match pyIndex2 arr x y with
      | .error _ => none
      | .ok none => none
      | .ok (some v) => some (some v)

/-- `HexMap.get(pos=(x,y))` (the tile-position branch): negative coordinates
return `None`; each supplied layer is indexed in turn (meta first), and an
`IndexError` or an explicit `None` cell returns `None`. -/
def HexMap.get (m : HexMap α β) (pos : Int × Int) : Option (HexTile α β) :=
  if pos.1 < 0 || pos.2 < 0 then none
  else
    match hexLayerVal m.meta pos.1.toNat pos.2.toNat with
    | none => none
    | some mv =>
      match hexLayerVal m.images pos.1.toNat pos.2.toNat with
      | none => none
      | some iv => some ⟨pos.1, pos.2, m.tw, m.th, mv, iv⟩

/-- `HexMap.get(pos=..., px=...)` with both keyword arguments: the pixel
branch raises its explicit not-implemented signal before anything else;
with neither argument a `ValueError` is raised. -/
def HexMap.getFull (m : HexMap α β) (pos px : Option (Int × Int)) :
    Except PyErr (Option (HexTile α β)) :=
  match pos with
  | some p => .ok (m.get p)
  | none =>
    match px with
    | some _ => .error .notImplemented
    | none => .error .valueError

/-- The six hexagonal direction constants, as an enumerated type (the
source compares six distinct string singletons by identity). -/
inductive HexDir where
  | UP
  | DOWN
  | UP_LEFT
  | UP_RIGHT
  | DOWN_LEFT
  | DOWN_RIGHT
  deriving DecidableEq, Repr

/-- `HexTile.get_neighbor(direction)`: same column for UP/DOWN; for the
four diagonals the y offset depends on the column's parity (`self.x % 2`). -/
def HexTile.get_neighbor (t : HexTile α β) (m : HexMap α β) (d : HexDir) :
    Option (HexTile α β) :=
  match d with
  | .UP => m.get (t.x, t.y + 1)
  | .DOWN => m.get (t.x, t.y - 1)
  | .UP_LEFT =>
    if t.x % 2 ≠ 0 then m.get (t.x - 1, t.y + 1) else m.get (t.x - 1, t.y)
  | .UP_RIGHT =>
    if t.x % 2 ≠ 0 then m.get (t.x + 1, t.y + 1) else m.get (t.x + 1, t.y)
  | .DOWN_LEFT =>
    if t.x % 2 ≠ 0 then m.get (t.x - 1, t.y) else m.get (t.x - 1, t.y - 1)
  | .DOWN_RIGHT =>
    if t.x % 2 ≠ 0 then m.get (t.x + 1, t.y) else m.get (t.x + 1, t.y - 1)

/-! ### Concrete fixtures

The doctest maps of `map.py`, used as concrete instances in witnesses and
counterexamples. -/

set_option maxRecDepth 8000

/-- The hex scenario's backing array,
`[['a','b'],['c','d'],['e','f'],['g','h']]`. -/
def c5meta : List (List (Option Char)) :=
  [[some 'a', some 'b'], [some 'c', some 'd'],
   [some 'e', some 'f'], [some 'g', some 'h']]

/-- The hex map `HexMap(32, meta=c5meta)`, written out field by field
(certified against `hexInit` by `rfl` in the theorems that use it). -/
def mkHexEx : HexMap Char Char :=
  { tw := 36, th := 32, edge_length := 18,
    left := (18, 16), right := (36, 16), pxw := 117, pxh := 80,
    x := 0, y := 0, z := 0, meta := some c5meta, images := none }

/-- The rectangular doctest backing array,
`[['a','d'],['b','e'],['c','f']]`. -/
def rectMeta : List (List (Option Char)) :=
  [[some 'a', some 'd'], [some 'b', some 'e'], [some 'c', some 'f']]

/-- The rectangular map `Map(32, 32, meta=rectMeta)`. -/
def mkRectEx : Map Char Char :=
  { tw := 32, th := 32, x := 0, y := 0, z := 0,
    meta := some rectMeta, images := none, pxw := 96, pxh := 64 }

/-- A two-layer hex backing pair: the images layer holds `None` at `(0,1)`
and `(1,0)` while the meta layer is filled everywhere. -/
def c9meta : List (List (Option Char)) :=
  [[some 'a', some 'b'], [some 'c', some 'd']]

def c9imgs : List (List (Option Nat)) :=
  [[some 1, none], [none, some 4]]

/-- The two-layer hex map `HexMap(32, meta=c9meta, images=c9imgs)`. -/
def mkHex9 : HexMap Char Nat :=
  { tw := 36, th := 32, edge_length := 18,
    left := (18, 16), right := (36, 16), pxw := 63, pxh := 80,
    x := 0, y := 0, z := 0, meta := some c9meta, images := some c9imgs }

/-! ### Derived notions used in the claim statements -/

/-- Does `(x, y)` fall beyond the extent of a backing array whose column
lengths are `cols`? Either column `x` does not exist, or row `y` is at or
past the end of column `x`. -/
def beyondExtent (cols : List Nat) (x y : Int) : Bool :=
  match cols[x.toNat]? with
  | none => true
  | some c => decide (c ≤ y.toNat)

/-- The cell of a column-major array at `(x, y)`: `some v` when in bounds
(with `v` the stored optional value), `none` when out of bounds. -/
def cellAt (arr : List (List (Option γ))) (x y : Nat) : Option (Option γ) :=
  match arr[x]? with
  | none => none
  | some col => col[y]?

/-- The neighbor-coordinate table exactly as the claim words it: UP is
`(x, y+1)` and DOWN is `(x, y-1)`; when x is odd, UP_LEFT is `(x-1, y+1)`,
UP_RIGHT is `(x+1, y+1)`, DOWN_LEFT is `(x-1, y)`, DOWN_RIGHT is
`(x+1, y)`; when x is even, UP_LEFT is `(x-1, y)`, UP_RIGHT is `(x+1, y)`,
DOWN_LEFT is `(x-1, y-1)`, DOWN_RIGHT is `(x+1, y-1)`. -/
def claimNeighborCoord (x y : Int) : HexDir → Int × Int
  | .UP => (x, y + 1)
  | .DOWN => (x, y - 1)
  | .UP_LEFT => if x % 2 = 1 then (x - 1, y + 1) else (x - 1, y)
  | .UP_RIGHT => if x % 2 = 1 then (x + 1, y + 1) else (x + 1, y)
  | .DOWN_LEFT => if x % 2 = 1 then (x - 1, y) else (x - 1, y - 1)
  | .DOWN_RIGHT => if x % 2 = 1 then (x + 1, y) else (x + 1, y - 1)

/-! ### Helper lemmas -/

/-- A rectangular lookup that produces a tile produced it at the requested
coordinates. -/
lemma map_get_coords {α β : Type} {m : Map α β} {x y : Int} {t : Tile α β}
    (h : m.get (x, y) = some t) : t.x = x ∧ t.y = y := by
  unfold Map.get at h
  split at h
  · simp at h
  split at h
  · simp at h
  split at h
  · simp at h
  injection h with h
  subst h
  exact ⟨rfl, rfl⟩

/-- A hexagonal lookup that produces a tile produced it at the requested
coordinates. -/
lemma hexmap_get_coords {α β : Type} {m : HexMap α β} {x y : Int}
    {u : HexTile α β} (h : m.get (x, y) = some u) : u.x = x ∧ u.y = y := by
  unfold HexMap.get at h
  split at h
  · simp at h
  split at h
  · simp at h
  split at h
  · simp at h
  injection h with h
  subst h
  exact ⟨rfl, rfl⟩

/-- Negative coordinates short-circuit a rectangular lookup to `none`. -/
lemma map_get_neg {α β : Type} (m : Map α β) {x y : Int}
    (h : x < 0 ∨ y < 0) : m.get (x, y) = none := by
  unfold Map.get
  rcases h with h | h <;> simp [h]

/-- Negative coordinates short-circuit a hexagonal lookup to `none`. -/
lemma hexmap_get_neg {α β : Type} (m : HexMap α β) {x y : Int}
    (h : x < 0 ∨ y < 0) : m.get (x, y) = none := by
  unfold HexMap.get
  rcases h with h | h <;> simp [h]

/-- `pyOrShape a b = some cols` came from `a` when `a` is truthy, from `b`
otherwise. -/
lemma pyOrShape_cases {a b : Option (List Nat)} {cols : List Nat}
    (h : pyOrShape a b = some cols) :
    (truthyShape a = true ∧ a = some cols) ∨
    (truthyShape a = false ∧ b = some cols) := by
  unfold pyOrShape at h
  split at h
  · exact Or.inl ⟨by assumption, h⟩
  · exact Or.inr ⟨Bool.eq_false_iff.mpr ‹¬_›, h⟩

/-- A shape is `some` exactly for a present layer, and lists its column
lengths. -/
lemma shape_some {γ : Type} {l : Layer γ} {cols : List Nat}
    (h : shape l = some cols) :
    ∃ arr, l = some arr ∧ cols = arr.map List.length := by
  cases l with
  | none => simp [shape] at h
  | some arr => exact ⟨arr, rfl, by simpa [shape] using h.symm⟩

/-- A truthy present layer is a nonempty array. -/
lemma truthyShape_nonempty {γ : Type} {arr : List (List (Option γ))}
    (h : truthyShape (shape (some arr)) = true) : arr.isEmpty = false := by
  cases arr with
  | nil => simp [truthyShape, shape] at h
  | cons c rest => rfl

/-- Indexing beyond the extent of the array raises `IndexError`. -/
lemma pyIndex2_oob {γ : Type} {arr : List (List (Option γ))} {x y : Int}
    (hb : beyondExtent (arr.map List.length) x y = true) :
    pyIndex2 arr x.toNat y.toNat = .error .indexError := by
  unfold beyondExtent at hb
  unfold pyIndex2
  cases harr : arr[x.toNat]? with
  | none => simp [harr]
  | some col =>
    have hm : (arr.map List.length)[x.toNat]? = some col.length := by
      rw [List.getElem?_map, harr]; rfl
    rw [hm] at hb
    have hle : col.length ≤ y.toNat := by simpa using hb
    have hcol : col[y.toNat]? = none := List.getElem?_eq_none hle
    simp [harr, hcol]

/-- A truthy meta/images layer indexed beyond its extent makes the
rectangular per-layer lookup raise. -/
lemma layerLookup_oob {γ : Type} {arr : List (List (Option γ))} {x y : Int}
    (hne : arr.isEmpty = false)
    (hb : beyondExtent (arr.map List.length) x y = true) :
    layerLookup (some arr) x.toNat y.toNat = .error .indexError := by
  unfold layerLookup
  simp only [hne, Bool.false_eq_true, if_false]
  exact pyIndex2_oob hb

/-- A falsy layer contributes an absent value in `Map.get`. -/
lemma layerLookup_falsy {γ : Type} {l : Layer γ}
    (h : truthyShape (shape l) = false) (x y : Nat) :
    layerLookup l x y = .ok none := by
  cases l with
  | none => rfl
  | some arr =>
    cases arr with
    | nil => rfl
    | cons c rest => simp [truthyShape, shape] at h

/-- A truthy meta/images layer indexed beyond its extent makes the
hexagonal per-layer lookup return the early-`None` signal. -/
lemma hexLayerVal_oob {γ : Type} {arr : List (List (Option γ))} {x y : Int}
    (hne : arr.isEmpty = false)
    (hb : beyondExtent (arr.map List.length) x y = true) :
    hexLayerVal (some arr) x.toNat y.toNat = none := by
  unfold hexLayerVal
  simp [hne, pyIndex2_oob hb]

/-- A falsy layer contributes an absent value in `HexMap.get`. -/
lemma hexLayerVal_falsy {γ : Type} {l : Layer γ}
    (h : truthyShape (shape l) = false) (x y : Nat) :
    hexLayerVal l x y = some none := by
  cases l with
  | none => rfl
  | some arr =>
    cases arr with
    | nil => rfl
    | cons c rest => simp [truthyShape, shape] at h

/-- The hexagonal per-layer lookup at an in-bounds cell: an explicit
`None` cell yields the early-`None` signal, a stored value is passed on. -/
lemma hexLayerVal_cell {γ : Type} {arr : List (List (Option γ))}
    {x y : Nat} {v : Option γ} (h : cellAt arr x y = some v) :
    hexLayerVal (some arr) x y =
      match v with
      | none => none
      | some w => some (some w) := by
  unfold cellAt at h
  cases harr : arr[x]? with
  | none => rw [harr] at h; simp at h
  | some col =>
    rw [harr] at h
    have hcol : col[y]? = some v := h
    have hne : arr.isEmpty = false := by
      cases arr with
      | nil => simp at harr
      | cons c rest => rfl
    unfold hexLayerVal pyIndex2
    cases v with
    | none => simp [hne, harr, hcol]
    | some w => simp [hne, harr, hcol]

/-- A successful `mapInit` stores the supplied layers unchanged, and its
backing shape has at least two columns. -/
lemma mapInit_ok_fields {α β : Type} {tw th : Int} {o : Int × Int × Int}
    {meta : Layer α} {images : Layer β} {m : Map α β} {cols : List Nat}
    (hinit : mapInit tw th o meta images = .ok m)
    (hcols : pyOrShape (shape meta) (shape images) = some cols) :
    m.meta = meta ∧ m.images = images ∧ cols ≠ [] := by
  unfold mapInit at hinit
  split at hinit
  · simp at hinit
  rw [hcols] at hinit
  simp only [] at hinit
  cases hc : (cols[1]? : Option Nat) with
  | none => rw [hc] at hinit; simp at hinit
  | some c1 =>
    rw [hc] at hinit
    simp only [] at hinit
    injection hinit with h
    subst h
    refine ⟨rfl, rfl, ?_⟩
    intro hnil
    subst hnil
    simp at hc

/-- A successful `hexInit` stores the supplied layers unchanged, and its
backing shape has at least one column. -/
lemma hexInit_ok_fields {α β : Type} {th : Int} {o : Int × Int × Int}
    {meta : Layer α} {images : Layer β} {m : HexMap α β} {cols : List Nat}
    (hinit : hexInit th o meta images = .ok m)
    (hcols : pyOrShape (shape meta) (shape images) = some cols) :
    m.meta = meta ∧ m.images = images ∧ cols ≠ [] := by
  unfold hexInit at hinit
  split at hinit
  · simp at hinit
  rw [hcols] at hinit
  simp only [] at hinit
  cases hc : (cols[0]? : Option Nat) with
  | none => rw [hc] at hinit; simp at hinit
  | some h0 =>
    rw [hc] at hinit
    simp only [] at hinit
    injection hinit with h
    subst h
    refine ⟨rfl, rfl, ?_⟩
    intro hnil
    subst hnil
    simp at hc

/-- A nonempty column-length list comes from a nonempty array. -/
lemma nonempty_of_cols {γ : Type} {arr : List (List (Option γ))}
    {cols : List Nat} (hcols : cols = arr.map List.length)
    (hne : cols ≠ []) : arr.isEmpty = false := by
  cases arr with
  | nil => subst hcols; simp at hne
  | cons c rest => rfl

/-! ### Claims -/

/-- Claim C1: for every `HexTile` at grid coordinate `(x, y)` and every
direction, `get_neighbor` returns the map's tile at the coordinate given
by the parity rule of `claimNeighborCoord`. -/
theorem hex_get_neighbor_parity_table {α β : Type} (m : HexMap α β)
    (t : HexTile α β) (d : HexDir) :
    t.get_neighbor m d = m.get (claimNeighborCoord t.x t.y d) := by
  rcases Int.emod_two_eq_zero_or_one t.x with h | h <;>
    cases d <;>
      simp [HexTile.get_neighbor, claimNeighborCoord, h]

/-- Claim C2 (failing input): building a rectangular map over a 1-column,
2-row backing array raises `IndexError`, because `pxh` reads `len(l[1])` —
the second column — which does not exist; the claim (and intent: the
sibling `HexMap.__init__` reads `len(l[0])`) expects success with
`pxw = 1 * 32` and `pxh = 2 * 32`. -/
theorem mapInit_single_column_raises :
    mapInit 32 32 (0, 0, 0) (some [[some 'a', some 'b']])
      (none : Layer Char) = .error .indexError := rfl

/-- Claim C3: for every constructed rectangular `Map` and every
constructed `HexMap` (`cols` being the column lengths of the chosen
backing array `l = meta or images`), a lookup at a coordinate that is
negative in either axis or beyond the backing array's extent returns the
absent value `none` (and, the lookup being a total function into
`Option`, never raises). -/
theorem get_out_of_bounds_none {α β : Type} :
    (∀ (tw th : Int) (o : Int × Int × Int) (meta : Layer α)
        (images : Layer β) (m : Map α β) (cols : List Nat),
      mapInit tw th o meta images = .ok m →
      pyOrShape (shape meta) (shape images) = some cols →
      ∀ x y : Int,
        (x < 0 ∨ y < 0 ∨ beyondExtent cols x y = true) →
        m.get (x, y) = none) ∧
    (∀ (th : Int) (o : Int × Int × Int) (meta : Layer α)
        (images : Layer β) (m : HexMap α β) (cols : List Nat),
      hexInit th o meta images = .ok m →
      pyOrShape (shape meta) (shape images) = some cols →
      ∀ x y : Int,
        (x < 0 ∨ y < 0 ∨ beyondExtent cols x y = true) →
        m.get (x, y) = none) := by
  constructor
  · intro tw th o meta images m cols hinit hcols x y hoob
    obtain ⟨hmeta, himages, hnz⟩ := mapInit_ok_fields hinit hcols
    by_cases hneg : x < 0 ∨ y < 0
    · exact map_get_neg m hneg
    have hx' : ¬ x < 0 := fun hc => hneg (Or.inl hc)
    have hy' : ¬ y < 0 := fun hc => hneg (Or.inr hc)
    have hb : beyondExtent cols x y = true := by
      rcases hoob with h | h | h
      · exact absurd h hx'
      · exact absurd h hy'
      · exact h
    rcases pyOrShape_cases hcols with ⟨htr, ha⟩ | ⟨hfa, hbs⟩
    · obtain ⟨arr, rfl, rfl⟩ := shape_some ha
      have hne := truthyShape_nonempty htr
      have herr := layerLookup_oob hne hb
      simp [Map.get, hx', hy', hmeta, herr]
    · obtain ⟨arr2, rfl, rfl⟩ := shape_some hbs
      have hne2 : arr2.isEmpty = false := nonempty_of_cols rfl hnz
      have hmetaLk := layerLookup_falsy hfa x.toNat y.toNat
      have herr2 := layerLookup_oob hne2 hb
      simp [Map.get, hx', hy', hmeta, himages, hmetaLk, herr2]
  · intro th o meta images m cols hinit hcols x y hoob
    obtain ⟨hmeta, himages, hnz⟩ := hexInit_ok_fields hinit hcols
    by_cases hneg : x < 0 ∨ y < 0
    · exact hexmap_get_neg m hneg
    have hx' : ¬ x < 0 := fun hc => hneg (Or.inl hc)
    have hy' : ¬ y < 0 := fun hc => hneg (Or.inr hc)
    have hb : beyondExtent cols x y = true := by
      rcases hoob with h | h | h
      · exact absurd h hx'
      · exact absurd h hy'
      · exact h
    rcases pyOrShape_cases hcols with ⟨htr, ha⟩ | ⟨hfa, hbs⟩
    · obtain ⟨arr, rfl, rfl⟩ := shape_some ha
      have hne := truthyShape_nonempty htr
      have herr := hexLayerVal_oob hne hb
      simp [HexMap.get, hx', hy', hmeta, herr]
    · obtain ⟨arr2, rfl, rfl⟩ := shape_some hbs
      have hne2 : arr2.isEmpty = false := nonempty_of_cols rfl hnz
      have hmetaLk := hexLayerVal_falsy hfa x.toNat y.toNat
      have herr2 := hexLayerVal_oob hne2 hb
      simp [HexMap.get, hx', hy', hmeta, himages, hmetaLk, herr2]

/-- Witness for C3: probing the 3-column rectangular doctest map at
`(5, 0)` (column beyond extent) and the 2-row hex doctest map at `(0, 5)`
(row beyond extent) both return `none`. -/
theorem get_out_of_bounds_none_witness :
    mkRectEx.get (5, 0) = none ∧ mkHexEx.get (0, 5) = none :=
  ⟨(@get_out_of_bounds_none Char Char).1 32 32 (0, 0, 0) (some rectMeta)
      none mkRectEx [2, 2, 2] rfl rfl 5 0 (Or.inr (Or.inr rfl)),
   (@get_out_of_bounds_none Char Char).2 32 (0, 0, 0) (some c5meta)
      none mkHexEx [2, 2, 2, 2] rfl rfl 0 5 (Or.inr (Or.inr rfl))⟩

/-- Claim C9: for a `HexMap` holding both a meta array and an images
array, an in-bounds lookup returns the absent value whenever either
layer's cell is `None`, even when the other layer holds a value there:
absence is decided per supplied layer. -/
theorem hex_get_absent_for_none_cell {α β : Type} (m : HexMap α β)
    (ma : List (List (Option α))) (ia : List (List (Option β)))
    (x y : Int) (mv : Option α) (iv : Option β)
    (hma : m.meta = some ma) (hia : m.images = some ia)
    (hx : 0 ≤ x) (hy : 0 ≤ y)
    (hmv : cellAt ma x.toNat y.toNat = some mv)
    (hiv : cellAt ia x.toNat y.toNat = some iv)
    (habs : mv = none ∨ iv = none) :
    m.get (x, y) = none := by
  have hx' : ¬ x < 0 := not_lt.mpr hx
  have hy' : ¬ y < 0 := not_lt.mpr hy
  have hm := hexLayerVal_cell hmv
  have hi := hexLayerVal_cell hiv
  rcases habs with rfl | rfl
  · simp only [] at hm
    simp [HexMap.get, hx', hy', hma, hm]
  · simp only [] at hi
    cases mv with
    | none =>
      simp only [] at hm
      simp [HexMap.get, hx', hy', hma, hm]
    | some v =>
      simp only [] at hm
      simp [HexMap.get, hx', hy', hma, hia, hm, hi]

/-- Witness for C9: in the two-layer hex map, `meta[0][1] = 'b'` but
`images[0][1] = None`, and the lookup at `(0, 1)` is absent. -/
theorem hex_get_absent_for_none_cell_witness : mkHex9.get (0, 1) = none :=
  hex_get_absent_for_none_cell mkHex9 c9meta c9imgs 0 1 (some 'b') none
    rfl rfl (by decide) (by decide) rfl rfl (Or.inr rfl)

/-- Claim C4 (counterexample): constructing `Map` with `tw = 0` and
`th = 0` succeeds, so construction is NOT rejected for non-positive tile
dimensions. -/
theorem mapInit_accepts_zero_tile_size :
    (mapInit 0 0 (0, 0, 0) (some [[some 'a'], [some 'b']])
      (none : Layer Char)).isOk = true := rfl

/-- Claim C4 (amended): rectangular `Map` construction fails with
`ValueError` exactly when both `meta` and `images` are absent; it performs
no validation of `tw`/`th` (any values, including non-positive ones, are
accepted), succeeding whenever a backing array with at least two columns
is supplied. -/
theorem mapInit_validates_only_layers {α β : Type} (tw th : Int)
    (o : Int × Int × Int) (meta : List (List (Option α)))
    (h : 2 ≤ meta.length) :
    (mapInit tw th o (some meta) (none : Layer β)).isOk = true ∧
    mapInit tw th o (none : Layer α) (none : Layer β)
      = .error .valueError := by
  constructor
  · rcases meta with _ | ⟨c0, meta⟩
    · simp at h
    rcases meta with _ | ⟨c1, rest⟩
    · simp at h
    simp [mapInit, pyOrShape, truthyShape, shape, Except.isOk,
      Except.toBool, List.getElem?_cons_succ, List.getElem?_cons_zero]
  · rfl

/-- Witness for C4's amended theorem at `tw = th = 0` and the 2-column
array `[['a'], ['b']]`. -/
theorem mapInit_validates_only_layers_witness :
    (mapInit 0 0 (0, 0, 0) (some [[some 'a'], [some 'b']])
      (none : Layer Bool)).isOk = true ∧
    mapInit 0 0 (0, 0, 0) (none : Layer Char) (none : Layer Bool)
      = .error .valueError :=
  mapInit_validates_only_layers 0 0 (0, 0, 0) [[some 'a'], [some 'b']]
    (by decide)

/-- Claim C5 (counterexample): in the hex map built from
`meta = [['a','b'],['c','d'],['e','f'],['g','h']]` with `th = 32`,
`get((0,0)).get_neighbor(DOWN_RIGHT)` is `None` — column 0 is even, so
DOWN_RIGHT targets `(1, -1)`, which is out of bounds — not a tile with
meta `'e'` as the claim states. -/
theorem hex_scenario_downright_cx :
    hexInit 32 (0, 0, 0) (some c5meta) (none : Layer Char) = .ok mkHexEx ∧
    ((mkHexEx.get (0, 0)).bind
      fun t => t.get_neighbor mkHexEx .DOWN_RIGHT) = none :=
  ⟨rfl, rfl⟩

/-- Claim C5 (amended): for the hex map built from
`meta = [['a','b'],['c','d'],['e','f'],['g','h']]` and `th = 32`:
`get((0,0)).meta == 'a'`, `get((0,0)).get_neighbor(UP).meta == 'b'`,
`get((0,0)).get_neighbor(DOWN_RIGHT)` is absent, and
`get((0,0)).get_neighbor(DOWN)` is absent. -/
theorem hex_scenario_amended :
    hexInit 32 (0, 0, 0) (some c5meta) (none : Layer Char) = .ok mkHexEx ∧
    (mkHexEx.get (0, 0)).map HexTile.meta = some (some 'a') ∧
    ((mkHexEx.get (0, 0)).bind
      fun t => t.get_neighbor mkHexEx .UP).map HexTile.meta
        = some (some 'b') ∧
    ((mkHexEx.get (0, 0)).bind
      fun t => t.get_neighbor mkHexEx .DOWN_RIGHT) = none ∧
    ((mkHexEx.get (0, 0)).bind
      fun t => t.get_neighbor mkHexEx .DOWN) = none :=
  ⟨rfl, rfl, rfl, rfl, rfl⟩

/-- Claim C8: for every `HexMap` and every pixel coordinate, calling `get`
with the pixel argument never returns a tile: it raises the explicit
not-implemented signal, for all inputs. -/
theorem hexmap_get_px_raises {α β : Type} (m : HexMap α β)
    (p : Int × Int) :
    m.getFull none (some p) = .error .notImplemented := rfl

/-- Claim C10 (counterexample): at `x = 0` with `width = 32 ≠ height = 16`,
`bottomleft`'s x-coordinate still equals the `left` property (both are 0),
so "whenever w != h, bottomleft's x-coordinate differs from the left
property" fails. -/
theorem tile_bottomleft_x0_cx :
    ((⟨0, 3, 32, 16, none, none⟩ : Tile Unit Unit).width ≠
      (⟨0, 3, 32, 16, none, none⟩ : Tile Unit Unit).height) ∧
    (⟨0, 3, 32, 16, none, none⟩ : Tile Unit Unit).get_bottomleft.1 =
      (⟨0, 3, 32, 16, none, none⟩ : Tile Unit Unit).get_left := by
  exact ⟨by decide, rfl⟩

/-- Claim C10 (amended): for every rectangular tile,
`topleft = (x*w, y*h)` with its y-coordinate equal to the `bottom`
property, `bottomright = ((x+1)*w, (y+1)*h)` with its y-coordinate equal
to the `top` property, and `bottomleft = (x*h, (y+1)*h)` — its
x-coordinate is computed from the tile height, so whenever `w ≠ h` AND
`x ≠ 0`, `bottomleft`'s x-coordinate differs from the `left` property. -/
theorem tile_corner_accessors {α β : Type} (t : Tile α β) :
    t.get_topleft = (t.x * t.width, t.y * t.height) ∧
    t.get_topleft.2 = t.get_bottom ∧
    t.get_bottomright = ((t.x + 1) * t.width, (t.y + 1) * t.height) ∧
    t.get_bottomright.2 = t.get_top ∧
    t.get_bottomleft = (t.x * t.height, (t.y + 1) * t.height) ∧
    (t.width ≠ t.height → t.x ≠ 0 →
      t.get_bottomleft.1 ≠ t.get_left) := by
  refine ⟨rfl, rfl, rfl, rfl, rfl, fun hwh hx => ?_⟩
  show t.x * t.height ≠ t.x * t.width
  intro hcontra
  exact hwh (mul_left_cancel₀ hx hcontra).symm

/-- Claim C6: for every rectangular `Map` and every `HexMap` and every
grid coordinate `(x, y)`, an in-bounds lookup — one that returns a tile —
returns a tile whose `x` attribute equals `x` and whose `y` attribute
equals `y`. -/
theorem get_tile_coordinates {α β : Type} (m : Map α β) (hm : HexMap α β)
    (x y : Int) :
    (∀ t : Tile α β, m.get (x, y) = some t → t.x = x ∧ t.y = y) ∧
    (∀ u : HexTile α β, hm.get (x, y) = some u → u.x = x ∧ u.y = y) :=
  ⟨fun _ ht => map_get_coords ht, fun _ hu => hexmap_get_coords hu⟩

/-- Witness for C6 at `(1, 0)` of the doctest maps: the rectangular lookup
yields the tile with meta `'b'` at `(1, 0)`, the hexagonal one the tile
with meta `'c'` at `(1, 0)`. -/
theorem get_tile_coordinates_witness :
    ((⟨1, 0, 32, 32, some 'b', none⟩ : Tile Char Char).x = 1 ∧
      (⟨1, 0, 32, 32, some 'b', none⟩ : Tile Char Char).y = 0) ∧
    ((⟨1, 0, 36, 32, some 'c', none⟩ : HexTile Char Char).x = 1 ∧
      (⟨1, 0, 36, 32, some 'c', none⟩ : HexTile Char Char).y = 0) :=
  ⟨(get_tile_coordinates mkRectEx mkHexEx 1 0).1 _ rfl,
   (get_tile_coordinates mkRectEx mkHexEx 1 0).2 _ rfl⟩

/-- Claim C7: for every `HexMap` and grid coordinate `(x, y)` of either
column parity, when `get((x,y))` returns a tile and its UP lookup returns
a tile, going UP then DOWN returns exactly the original tile (same
coordinates, meta and image). -/
theorem hex_up_down_roundtrip {α β : Type} (m : HexMap α β) (x y : Int)
    (t u : HexTile α β) (ht : m.get (x, y) = some t)
    (hu : t.get_neighbor m .UP = some u) :
    u.get_neighbor m .DOWN = some t := by
  obtain ⟨htx, hty⟩ := hexmap_get_coords ht
  have h1 : t.get_neighbor m .UP = m.get (x, y + 1) := by
    simp [HexTile.get_neighbor, htx, hty]
  rw [h1] at hu
  obtain ⟨hux, huy⟩ := hexmap_get_coords hu
  have h2 : u.get_neighbor m .DOWN = m.get (x, y) := by
    simp [HexTile.get_neighbor, hux, huy]
  rw [h2]
  exact ht

/-- Witness for C7 at `(0, 0)` of the hex doctest map: UP reaches the
tile with meta `'b'` at `(0, 1)`, and DOWN from it returns the original
tile with meta `'a'`. -/
theorem hex_up_down_roundtrip_witness :
    (⟨0, 1, 36, 32, some 'b', none⟩ : HexTile Char Char).get_neighbor
      mkHexEx .DOWN = some ⟨0, 0, 36, 32, some 'a', none⟩ :=
  hex_up_down_roundtrip mkHexEx 0 0 _ _ rfl rfl

/-- Witness for C10's amended theorem at the tile `(2, 0)` with
`width = 32`, `height = 16`. -/
theorem tile_corner_accessors_witness :
    (⟨2, 0, 32, 16, none, none⟩ : Tile Unit Unit).get_bottomleft.1 ≠
      (⟨2, 0, 32, 16, none, none⟩ : Tile Unit Unit).get_left :=
  (tile_corner_accessors (⟨2, 0, 32, 16, none, none⟩ : Tile Unit Unit)
    ).2.2.2.2.2 (by decide) (by decide)

end Pyglet
